import Mathlib

/-!
A shallow embedding of the `DtoFrom` derive macro from
`simple_dto_mapper_derive` (`src/lib.rs`) and proofs about its behaviour.

Modelling conventions:
* `proc_macro2::Span` is abstracted as a natural number; `Span::call_site()`
  is the number `0`.
* Identifiers (`syn::Ident`) and type paths (`syn::Path`) are strings.
* A `#[dto(...)]` attribute is a path (the word before the parenthesis,
  for instance the string "dto") plus the list of its nested meta items;
  a nested meta item is a key, the span of that key, and an optional value
  (a string literal with its span, a path with its span, or nothing).
* Token streams are rendered as strings; `quote_spanned!` output carries
  its primary span next to the rendered text, and `quote!` output carries
  the call-site span.  Literal curly braces inside rendered strings are
  written with the escapes \x7b and \x7d.
* `syn::Error` is a span together with a message; `to_compile_error()`
  renders it as a `compile_error!` invocation carrying that span.
* The behaviour of the `syn` library helpers used by the macro
  (`meta.value()`, `parse::<LitStr>()`, `parse::<Path>()`,
  `parse_nested_meta` short-circuiting on the first error) is modelled by
  small explicit functions; their error messages stand in for the parse diagnostics of `syn`, which the crate never inspects.
-/

namespace DtoMapper

/-- Source spans, abstracted as natural numbers. -/
abbrev Span := Nat

/-- The model of `proc_macro2::Span::call_site()`. -/
def call_site : Span := 0

/-- The model of `syn::Error`: a span and a message
(`syn::Error::new(span, msg)` / `syn::Error::new_spanned`). -/
structure SynError where
  span : Span
  msg : String
deriving DecidableEq, Repr

/-- The value part of a nested meta item inside `#[dto(...)]`: a string
literal with its span, a path with its span, or no value at all. -/
inductive MetaValue where
  | str (s : String) (span : Span)
  | path (p : String) (span : Span)
  | absent
deriving DecidableEq, Repr

/-- One nested meta item of a `#[dto(...)]` attribute: its key (the
identifier `meta.path`), the span of that key, and its value. -/
structure NestedMeta where
  key : String
  keySpan : Span
  value : MetaValue
deriving DecidableEq, Repr

/-- The model of `syn::Attribute`: the path of the attribute (checked against
"dto" by `attr.path().is_ident("dto")`) and its nested meta items. -/
structure Attribute where
  path : String
  metas : List NestedMeta
deriving DecidableEq, Repr

/-- The `FieldAttrs` struct of `src/lib.rs`: the per-field directives
collected from the `#[dto(...)]` attributes of the field. -/
structure FieldAttrs where
  rename : Option String := Option.none
  rename_span : Option Span := Option.none
  transform_fn : Option String := Option.none
  skip : Bool := false
  into_flag : Bool := false
deriving DecidableEq, Repr

/-- The `FieldAction` enum of `src/lib.rs`. -/
inductive FieldAction where
  | Skip
  | Transform (f : String)
  | Into
  | Direct
deriving DecidableEq, Repr

/-- The `decide_action` function of `src/lib.rs`: `skip` wins, then
`transform_fn`, then `into`, and `Direct` otherwise. -/
def decide_action (a : FieldAttrs) : FieldAction :=
  if a.skip then
    FieldAction.Skip
  else
    match a.transform_fn with
    | some f => FieldAction.Transform f
    | Option.none =>
      if a.into_flag then FieldAction.Into else FieldAction.Direct

/-- The `generate_field_mapping` function of `src/lib.rs`, with its
emitted tokens rendered as a string paired with the span that
`quote_spanned!` attaches (the `Skip` arm uses plain `quote!`, hence the
call-site span). -/
def generate_field_mapping (ident source_ident : String) (a : FieldAttrs)
    (access_span : Span) : String × Span :=
  match decide_action a with
  | FieldAction.Skip =>
      (ident ++ ": Default::default()", call_site)
  | FieldAction.Transform f =>
      (ident ++ ": " ++ f ++ "(source." ++ source_ident ++ ")", access_span)
  | FieldAction.Into =>
      (ident ++ ": ::core::convert::Into::into(source." ++ source_ident ++ ")",
       access_span)
  | FieldAction.Direct =>
      (ident ++ ": source." ++ source_ident, access_span)

/-- Modelled `syn` behaviour of `meta.value()?.parse::<syn::LitStr>()?`:
succeeds exactly on a string-literal value, returning the text and span of the literal. -/
def parse_value_lit_str (keySpan : Span) : MetaValue → Except SynError (String × Span)
  | MetaValue.str s sp => Except.ok (s, sp)
  | MetaValue.path _ sp => Except.error ⟨sp, "expected string literal"⟩
  | MetaValue.absent => Except.error ⟨keySpan, "expected `=`"⟩

/-- Modelled `syn` behaviour of `meta.value()?.parse::<syn::Path>()?`:
succeeds exactly on a path value. -/
def parse_value_path (keySpan : Span) : MetaValue → Except SynError String
  | MetaValue.path p _ => Except.ok p
  | MetaValue.str _ sp => Except.error ⟨sp, "expected path"⟩
  | MetaValue.absent => Except.error ⟨keySpan, "expected `=`"⟩

/-- Modelled Rust `lit.value().trim().is_empty()`: trimming removes the
leading and trailing whitespace characters, so the trimmed string is
empty exactly when every character of the string is whitespace (in
particular the empty string and " " both qualify). -/
def trim_is_empty (s : String) : Bool := s.data.all Char.isWhitespace

/-- The parsing state of `extract_dto_field_attrs`: the `FieldAttrs`
being built plus the four `seen_*` duplicate flags. -/
structure FieldParseState where
  cfg : FieldAttrs := {}
  seen_rename : Bool := false
  seen_transform : Bool := false
  seen_skip : Bool := false
  seen_into : Bool := false
deriving DecidableEq, Repr

/-- The closure passed to `attr.parse_nested_meta` inside
`extract_dto_field_attrs` of `src/lib.rs`, acting on one nested meta
item.  The branch order, the order of checks inside each branch (for
`rename`: literal parse, then emptiness of the trimmed value, then the
duplicate flag) and every error span and message follow the source. -/
def process_field_meta (st : FieldParseState) (m : NestedMeta) :
    Except SynError FieldParseState :=
  if m.key = "rename" then
    match parse_value_lit_str m.keySpan m.value with
    | Except.error e => Except.error e
    | Except.ok (s, sp) =>
      if trim_is_empty s then
        Except.error ⟨sp, "`rename` cannot be empty"⟩
      else if st.seen_rename then
        Except.error ⟨sp, "duplicate `rename`"⟩
      else
        Except.ok { st with
          seen_rename := true,
          cfg := { st.cfg with rename_span := some sp, rename := some s } }
  else if m.key = "transform_fn" then
    if st.seen_transform then
      Except.error ⟨m.keySpan, "duplicate `transform_fn`"⟩
    else
      match parse_value_path m.keySpan m.value with
      | Except.error e => Except.error e
      | Except.ok p =>
        Except.ok { st with
          seen_transform := true,
          cfg := { st.cfg with transform_fn := some p } }
  else if m.key = "skip" then
    if st.seen_skip then
      Except.error ⟨m.keySpan, "duplicate `skip`"⟩
    else
      Except.ok { st with seen_skip := true, cfg := { st.cfg with skip := true } }
  else if m.key = "into" then
    if st.seen_into then
      Except.error ⟨m.keySpan, "duplicate `into`"⟩
    else
      Except.ok { st with seen_into := true, cfg := { st.cfg with into_flag := true } }
  else
    Except.error ⟨m.keySpan,
      "unknown #[dto(...)] key; expected one of: rename, transform_fn, skip, into"⟩

/-- One iteration of the `for attr in attrs` loop of
`extract_dto_field_attrs`: non-`dto` attributes are skipped, and
`attr.parse_nested_meta` runs the closure over the nested metas,
stopping at the first error. -/
def process_field_attr (st : FieldParseState) (attr : Attribute) :
    Except SynError FieldParseState :=
  if attr.path = "dto" then attr.metas.foldlM process_field_meta st
  else Except.ok st

/-- The two mutual-exclusion checks performed by
`extract_dto_field_attrs` after the attribute loop (lines 378-389 of
`src/lib.rs`), in source order: the `skip` conflict first, the
`transform_fn`/`into` conflict second. -/
def validate_field_attrs (cfg : FieldAttrs) : Except SynError FieldAttrs :=
  if cfg.skip && (cfg.rename.isSome || cfg.transform_fn.isSome || cfg.into_flag) then
    Except.error ⟨call_site,
      "`#[dto(skip)]` cannot be combined with `rename`, `transform_fn`, or `into`"⟩
  else if cfg.transform_fn.isSome && cfg.into_flag then
    Except.error ⟨call_site,
      "`#[dto(transform_fn = ...)]` conflicts with `#[dto(into)]`"⟩
  else
    Except.ok cfg

/-- The `extract_dto_field_attrs` function of `src/lib.rs`: fold the
parsing closure over all attributes, then run the conflict checks. -/
def extract_dto_field_attrs (attrs : List Attribute) : Except SynError FieldAttrs := do
  let st ← attrs.foldlM process_field_attr {}
  validate_field_attrs st.cfg

/-- The parsing state of `find_source_type`: the optional result path and
the `seen_from` duplicate flag. -/
structure FromParseState where
  result : Option String := Option.none
  seen_from : Bool := false
deriving DecidableEq, Repr

/-- The closure passed to `attr.parse_nested_meta` inside
`find_source_type` of `src/lib.rs`: only the key `from` is accepted, a
second `from` is a duplicate error, and any other key is the
unknown-struct-level-key error. -/
def process_struct_meta (st : FromParseState) (m : NestedMeta) :
    Except SynError FromParseState :=
  if m.key = "from" then
    if st.seen_from then
      Except.error ⟨m.keySpan, "duplicate `from` on struct"⟩
    else
      match parse_value_path m.keySpan m.value with
      | Except.error e => Except.error e
      | Except.ok p => Except.ok { result := some p, seen_from := true }
  else
    Except.error ⟨m.keySpan,
      "unknown struct-level #[dto(...)] key; expected `from`"⟩

/-- One iteration of the `for attr in attrs` loop of `find_source_type`:
non-`dto` attributes are skipped. -/
def process_struct_attr (st : FromParseState) (attr : Attribute) :
    Except SynError FromParseState :=
  if attr.path = "dto" then attr.metas.foldlM process_struct_meta st
  else Except.ok st

/-- The `find_source_type` function of `src/lib.rs`: fold over the
struct-level attributes, then demand that a `from = Type` was found. -/
def find_source_type (attrs : List Attribute) : Except SynError String := do
  let st ← attrs.foldlM process_struct_attr {}
  match st.result with
  | some p => Except.ok p
  | Option.none =>
    Except.error ⟨call_site, "Expected `#[dto(from = Type)]` on the struct."⟩

/-- The model of one named field of the annotated struct: its identifier,
the span of that identifier, and its attributes. -/
structure Field where
  ident : String
  span : Span
  attrs : List Attribute
deriving DecidableEq, Repr

/-- The model of `syn::Fields`. -/
inductive Fields where
  | named (fields : List Field)
  | unnamed (arity : Nat)
  | unit
deriving DecidableEq, Repr

/-- The model of `syn::Data`: a struct, an enumeration, or a union. -/
inductive Data where
  | Struct (fields : Fields)
  | Enum
  | Union
deriving DecidableEq, Repr

/-- The model of `syn::DeriveInput`: the item identifier with its span,
the struct-level attributes, the three rendered pieces produced by
`generics.split_for_impl()`, and the data of the item. -/
structure DeriveInput where
  ident : String
  identSpan : Span
  attrs : List Attribute
  implGenerics : String
  tyGenerics : String
  whereClause : String
  data : Data
deriving DecidableEq, Repr

/-- The model of `syn::Error::to_compile_error().into()`: a
`compile_error!` invocation carrying the message of the error, at the span of the error. -/
def to_compile_error (e : SynError) : String × Span :=
  ("compile_error!(\"" ++ e.msg ++ "\")", e.span)

/-- The per-field body of the `fields.iter().map(...)` closure in
`dto_from_derive` (lines 279-288 of `src/lib.rs`): extract the
directives of the field (an error becomes a `compile_error!` initializer), default the
source identifier to the name of the field itself and the access span to
the span of the field identifier, and generate the mapping. -/
def field_init (f : Field) : String × Span :=
  match extract_dto_field_attrs f.attrs with
  | Except.error e => to_compile_error e
  | Except.ok cfg =>
    let src_ident := cfg.rename.getD f.ident
    let access_span := cfg.rename_span.getD f.span
    generate_field_mapping f.ident src_ident cfg access_span

/-- The `#(#field_map,)*` interpolation of the `quote!` block: every
initializer is followed by a comma. -/
def join_inits (inits : List (String × Span)) : String :=
  String.join (inits.map (fun i => i.1 ++ ", "))

/-- The rendering of the `owned_impl` `quote!` block of `dto_from_derive`:
`impl #impl_generics From<#source_ty> for #target #ty_generics
#where_clause \x7b fn from(source: #source_ty) -> Self \x7b Self \x7b
#(#field_map,)* \x7d \x7d \x7d`. -/
def render_impl (implGenerics source_ty target tyGenerics whereClause : String)
    (inits : List (String × Span)) : String :=
  "impl " ++ implGenerics ++ " From<" ++ source_ty ++ "> for " ++ target
    ++ " " ++ tyGenerics ++ " " ++ whereClause
    ++ " \x7b fn from(source: " ++ source_ty ++ ") -> Self \x7b Self \x7b "
    ++ join_inits inits ++ "\x7d \x7d \x7d"

/-- The `dto_from_derive` entry point of `src/lib.rs`: look up the source
type first, then reject non-structs and structs without named fields,
and otherwise emit the single `From` impl with one initializer per field
in declaration order. -/
def dto_from_derive (input : DeriveInput) : String × Span :=
  match find_source_type input.attrs with
  | Except.error e => to_compile_error e
  | Except.ok source_ty =>
    match input.data with
    | Data.Struct (Fields.named fields) =>
      (render_impl input.implGenerics source_ty input.ident
        input.tyGenerics input.whereClause (fields.map field_init), call_site)
    | Data.Struct _ =>
      to_compile_error ⟨input.identSpan, "DtoFrom only supports named-field structs."⟩
    | _ =>
      to_compile_error ⟨input.identSpan, "DtoFrom only supports structs."⟩

/-- A concrete derive input used by the C2 witness: `#[dto(from = S)]`
on a named-field struct `T` with fields `a` (no directives) and `x`
(renamed to `y`). -/
def c2ExInput : DeriveInput :=
  ⟨"T", 9, [⟨"dto", [⟨"from", 1, MetaValue.path "S" 2⟩]⟩], "", "", "",
    Data.Struct (Fields.named
      [⟨"a", 3, []⟩,
       ⟨"x", 4, [⟨"dto", [⟨"rename", 5, MetaValue.str "y" 6⟩]⟩]⟩])⟩

/-- The field list of `c2ExInput`. -/
def c2ExFields : List Field :=
  [⟨"a", 3, []⟩, ⟨"x", 4, [⟨"dto", [⟨"rename", 5, MetaValue.str "y" 6⟩]⟩]⟩]

/-- A field carrying `skip`, `transform_fn = f` and `into` at once: all
three parse, and the conflict checks then run in source order. -/
def c3ConflictAttrs : List Attribute :=
  [⟨"dto", [⟨"skip", 1, MetaValue.absent⟩,
            ⟨"transform_fn", 2, MetaValue.path "f" 3⟩,
            ⟨"into", 4, MetaValue.absent⟩]⟩]

/-- An enum derive input carrying no attributes at all. -/
def c5EnumInput : DeriveInput := ⟨"E", 9, [], "", "", "", Data.Enum⟩

/-- The first field list of the C7 witness: field `b` carries `skip`. -/
def c7Fields1 : List Field :=
  [⟨"a", 3, []⟩, ⟨"b", 4, [⟨"dto", [⟨"skip", 5, MetaValue.absent⟩]⟩]⟩]

/-- The second field list of the C7 witness: field `b` carries `into`
instead; field `a` is untouched. -/
def c7Fields2 : List Field :=
  [⟨"a", 3, []⟩, ⟨"b", 4, [⟨"dto", [⟨"into", 5, MetaValue.absent⟩]⟩]⟩]

/-- The field of the C8 witness: `x` renamed to read from source field
`y`. -/
def c8Field : Field := ⟨"x", 4, [⟨"dto", [⟨"rename", 5, MetaValue.str "y" 6⟩]⟩]⟩

/-- The directives extracted from `c8Field`. -/
def c8Cfg : FieldAttrs := ⟨some "y", some 6, Option.none, false, false⟩

/-! ## Helper lemmas shared by the claim theorems -/

lemma validate_ok_eq {c d : FieldAttrs}
    (h : validate_field_attrs c = Except.ok d) : c = d := by
  unfold validate_field_attrs at h
  split at h
  · exact absurd h (by simp)
  · split at h
    · exact absurd h (by simp)
    · injection h

lemma extract_ok_validate {attrs : List Attribute} {cfg : FieldAttrs}
    (h : extract_dto_field_attrs attrs = Except.ok cfg) :
    validate_field_attrs cfg = Except.ok cfg := by
  unfold extract_dto_field_attrs at h
  cases hst : attrs.foldlM process_field_attr {} with
  | error e =>
    rw [hst] at h
    exact absurd h (by simp [Bind.bind, Except.bind])
  | ok st =>
    rw [hst] at h
    simp only [Bind.bind, Except.bind] at h
    have heq := validate_ok_eq h
    rw [heq] at h
    exact h

lemma extract_ok_no_conflict {attrs : List Attribute} {cfg : FieldAttrs}
    (h : extract_dto_field_attrs attrs = Except.ok cfg) :
    (cfg.skip && (cfg.rename.isSome || cfg.transform_fn.isSome || cfg.into_flag)) = false ∧
    (cfg.transform_fn.isSome && cfg.into_flag) = false := by
  have hv := extract_ok_validate h
  unfold validate_field_attrs at hv
  split at hv
  · exact absurd hv (by simp)
  · split at hv
    · exact absurd hv (by simp)
    · rename_i h1 h2
      exact ⟨by simpa using h1, by simpa using h2⟩

/-! ## Claim theorems -/

/-- C1: for every field of an annotated struct whose directives pass
validation, the emitted initializer is exactly one of four fixed code
shapes chosen by the directives of the field — `ident: Default::default()`
when `skip` is set, `ident: f(source.src)` when `transform_fn = f` is
given, `ident: ::core::convert::Into::into(source.src)` when `into` is
set, and `ident: source.src` otherwise — and no fifth shape (in
particular no fallible try-into form) is ever emitted. -/
theorem C1_four_shapes (attrs : List Attribute) (cfg : FieldAttrs)
    (ident src : String) (sp : Span)
    (h : extract_dto_field_attrs attrs = Except.ok cfg) :
    (cfg.skip = true →
      generate_field_mapping ident src cfg sp
        = (ident ++ ": Default::default()", call_site)) ∧
    (∀ f, cfg.transform_fn = some f →
      generate_field_mapping ident src cfg sp
        = (ident ++ ": " ++ f ++ "(source." ++ src ++ ")", sp)) ∧
    (cfg.into_flag = true →
      generate_field_mapping ident src cfg sp
        = (ident ++ ": ::core::convert::Into::into(source." ++ src ++ ")", sp)) ∧
    (cfg.skip = false → cfg.transform_fn = Option.none → cfg.into_flag = false →
      generate_field_mapping ident src cfg sp
        = (ident ++ ": source." ++ src, sp)) ∧
    ((generate_field_mapping ident src cfg sp).1 = ident ++ ": Default::default()"
      ∨ (∃ f, cfg.transform_fn = some f ∧
          (generate_field_mapping ident src cfg sp).1
            = ident ++ ": " ++ f ++ "(source." ++ src ++ ")")
      ∨ (generate_field_mapping ident src cfg sp).1
          = ident ++ ": ::core::convert::Into::into(source." ++ src ++ ")"
      ∨ (generate_field_mapping ident src cfg sp).1 = ident ++ ": source." ++ src) := by
  obtain ⟨h1, h2⟩ := extract_ok_no_conflict h
  refine ⟨?_, ?_, ?_, ?_, ?_⟩
  · intro hs
    simp [generate_field_mapping, decide_action, hs]
  · intro f hf
    have hs : cfg.skip = false := by
      simpa [hf] using h1
    simp [generate_field_mapping, decide_action, hs, hf]
  · intro hi
    have hs : cfg.skip = false := by
      simpa [hi] using h1
    have ht : cfg.transform_fn = Option.none := by
      rcases htf : cfg.transform_fn with _ | f
      · rfl
      · rw [htf] at h2; simp at h2; exact absurd hi (by simp [h2])
    simp [generate_field_mapping, decide_action, hs, ht, hi]
  · intro hs ht hi
    simp [generate_field_mapping, decide_action, hs, ht, hi]
  · cases hskip : cfg.skip with
    | true =>
      left
      simp [generate_field_mapping, decide_action, hskip]
    | false =>
      cases htf : cfg.transform_fn with
      | some f =>
        right; left
        exact ⟨f, rfl, by simp [generate_field_mapping, decide_action, hskip, htf]⟩
      | none =>
        cases hinto : cfg.into_flag with
        | true =>
          right; right; left
          simp [generate_field_mapping, decide_action, hskip, htf, hinto]
        | false =>
          right; right; right
          simp [generate_field_mapping, decide_action, hskip, htf, hinto]

/-- Witness for C1 at a concrete field whose only directive is `into`:
the emitted initializer is the `Into` shape. -/
theorem C1_four_shapes_witness :
    extract_dto_field_attrs [⟨"dto", [⟨"into", 5, MetaValue.absent⟩]⟩]
      = Except.ok { into_flag := true } ∧
    generate_field_mapping "a" "b" { into_flag := true } 7
      = ("a" ++ ": ::core::convert::Into::into(source." ++ "b" ++ ")", 7) :=
  ⟨rfl, (C1_four_shapes [⟨"dto", [⟨"into", 5, MetaValue.absent⟩]⟩]
      { into_flag := true } "a" "b" 7 rfl).2.2.1 rfl⟩

/-- C2: for every named-field struct annotated with `#[dto(from = S)]`
whose struct-level and field-level directives all pass validation, the
macro emits exactly one conversion routine: an `impl From<S> for Target`
whose `from(source)` constructs the target with one field initializer
per declared target field, in the declaration order of the fields. -/
theorem C2_single_from_impl (input : DeriveInput) (source_ty : String)
    (fields : List Field)
    (hfrom : find_source_type input.attrs = Except.ok source_ty)
    (hdata : input.data = Data.Struct (Fields.named fields))
    (hok : ∀ f ∈ fields, (extract_dto_field_attrs f.attrs).isOk) :
    dto_from_derive input
      = (render_impl input.implGenerics source_ty input.ident
          input.tyGenerics input.whereClause (fields.map field_init), call_site) ∧
    (fields.map field_init).length = fields.length ∧
    (∀ f ∈ fields, ∃ cfg, extract_dto_field_attrs f.attrs = Except.ok cfg ∧
      field_init f = generate_field_mapping f.ident (cfg.rename.getD f.ident) cfg
        (cfg.rename_span.getD f.span)) := by
  refine ⟨?_, ?_, ?_⟩
  · simp [dto_from_derive, hfrom, hdata]
  · simp
  · intro f hf
    have hOk := hok f hf
    cases hx : extract_dto_field_attrs f.attrs with
    | error e =>
      rw [hx] at hOk
      exact absurd hOk (by simp [Except.isOk, Except.toBool])
    | ok cfg =>
      exact ⟨cfg, rfl, by simp [field_init, hx]⟩

/-- Witness for C2: on `c2ExInput` the derive emits the single `From`
impl built from the two field initializers in declaration order. -/
theorem C2_single_from_impl_witness :
    find_source_type c2ExInput.attrs = Except.ok "S" ∧
    c2ExInput.data = Data.Struct (Fields.named c2ExFields) ∧
    (dto_from_derive c2ExInput
      = (render_impl c2ExInput.implGenerics "S" c2ExInput.ident
          c2ExInput.tyGenerics c2ExInput.whereClause (c2ExFields.map field_init),
         call_site) ∧
     (c2ExFields.map field_init).length = c2ExFields.length) :=
  ⟨rfl, rfl,
    (C2_single_from_impl c2ExInput "S" c2ExFields rfl rfl (by decide)).1,
    (C2_single_from_impl c2ExInput "S" c2ExFields rfl rfl (by decide)).2.1⟩

/-- C3 counterexample: on a field carrying `skip`, `transform_fn = f`
and `into` together, `transform_fn` appears together with `into`, yet
attribute extraction returns the `skip` conflict error, not the
`transform_fn`/`into` conflict error, because the `skip` check runs
first. -/
theorem C3_counterexample :
    c3ConflictAttrs.foldlM process_field_attr {}
      = Except.ok ⟨⟨Option.none, Option.none, some "f", true, true⟩, false, true, true, true⟩ ∧
    extract_dto_field_attrs c3ConflictAttrs
      = Except.error ⟨call_site,
          "`#[dto(skip)]` cannot be combined with `rename`, `transform_fn`, or `into`"⟩ ∧
    (extract_dto_field_attrs c3ConflictAttrs).isOk = false ∧
    extract_dto_field_attrs c3ConflictAttrs
      ≠ Except.error ⟨call_site,
          "`#[dto(transform_fn = ...)]` conflicts with `#[dto(into)]`"⟩ := by
  refine ⟨rfl, rfl, rfl, ?_⟩
  intro hcontra
  have h0 : (Except.error ⟨call_site,
      "`#[dto(skip)]` cannot be combined with `rename`, `transform_fn`, or `into`"⟩
        : Except SynError FieldAttrs)
      = Except.error ⟨call_site,
          "`#[dto(transform_fn = ...)]` conflicts with `#[dto(into)]`"⟩ := hcontra
  injection h0 with h1
  injection h1 with hsp hmsg
  exact absurd hmsg (by decide)

/-- C3 (amended): mutually exclusive field flags are validated, with the
`skip` conflict checked first — for every field whose attribute loop
produces state `st`, if `skip` appears together with any of `rename`,
`transform_fn`, or `into`, extraction returns the `skip` conflict error;
if `skip` is absent and `transform_fn` appears together with `into`,
extraction returns the `transform_fn`/`into` conflict error; and a field
with no conflicting combination passes both checks. -/
theorem C3_mutual_exclusion (attrs : List Attribute) (st : FieldParseState)
    (hloop : attrs.foldlM process_field_attr {} = Except.ok st) :
    ((st.cfg.skip && (st.cfg.rename.isSome || st.cfg.transform_fn.isSome
        || st.cfg.into_flag)) = true →
      extract_dto_field_attrs attrs = Except.error ⟨call_site,
        "`#[dto(skip)]` cannot be combined with `rename`, `transform_fn`, or `into`"⟩) ∧
    (st.cfg.skip = false → (st.cfg.transform_fn.isSome && st.cfg.into_flag) = true →
      extract_dto_field_attrs attrs = Except.error ⟨call_site,
        "`#[dto(transform_fn = ...)]` conflicts with `#[dto(into)]`"⟩) ∧
    ((st.cfg.skip && (st.cfg.rename.isSome || st.cfg.transform_fn.isSome
        || st.cfg.into_flag)) = false →
      (st.cfg.transform_fn.isSome && st.cfg.into_flag) = false →
      extract_dto_field_attrs attrs = Except.ok st.cfg) := by
  have hx : extract_dto_field_attrs attrs = validate_field_attrs st.cfg := by
    unfold extract_dto_field_attrs
    rw [hloop]
    rfl
  refine ⟨?_, ?_, ?_⟩
  · intro hc
    rw [hx]
    unfold validate_field_attrs
    simp [hc]
  · intro hs hc
    rw [hx]
    unfold validate_field_attrs
    simp [hs, hc]
  · intro h1 h2
    rw [hx]
    unfold validate_field_attrs
    simp [h1, h2]

/-- Witness for C3 (amended): a field with only `rename = "y"` has no
conflicting combination and passes both checks. -/
theorem C3_mutual_exclusion_witness :
    ([⟨"dto", [⟨"rename", 5, MetaValue.str "y" 6⟩]⟩] : List Attribute).foldlM
        process_field_attr {}
      = Except.ok ⟨⟨some "y", some 6, Option.none, false, false⟩, true, false, false, false⟩ ∧
    extract_dto_field_attrs [⟨"dto", [⟨"rename", 5, MetaValue.str "y" 6⟩]⟩]
      = Except.ok ⟨some "y", some 6, Option.none, false, false⟩ :=
  ⟨rfl,
    (C3_mutual_exclusion [⟨"dto", [⟨"rename", 5, MetaValue.str "y" 6⟩]⟩]
      ⟨⟨some "y", some 6, Option.none, false, false⟩, true, false, false, false⟩
      rfl).2.2 rfl rfl⟩

/-- C4: the attribute grammar is fixed and closed — a field-level key
other than `rename`, `transform_fn`, `skip`, or `into` fails with the
unknown-key error (both in the parsing closure for an arbitrary state
and end to end through attribute extraction), and a struct-level key
other than `from` fails with the unknown-struct-level-key error (both in
the closure and end to end through source-type lookup). -/
theorem C4_unknown_keys :
    (∀ (st : FieldParseState) (m : NestedMeta),
      m.key ≠ "rename" → m.key ≠ "transform_fn" → m.key ≠ "skip" → m.key ≠ "into" →
      process_field_meta st m = Except.error ⟨m.keySpan,
        "unknown #[dto(...)] key; expected one of: rename, transform_fn, skip, into"⟩) ∧
    (∀ m : NestedMeta,
      m.key ≠ "rename" → m.key ≠ "transform_fn" → m.key ≠ "skip" → m.key ≠ "into" →
      extract_dto_field_attrs [⟨"dto", [m]⟩] = Except.error ⟨m.keySpan,
        "unknown #[dto(...)] key; expected one of: rename, transform_fn, skip, into"⟩) ∧
    (∀ (st : FromParseState) (m : NestedMeta), m.key ≠ "from" →
      process_struct_meta st m = Except.error ⟨m.keySpan,
        "unknown struct-level #[dto(...)] key; expected `from`"⟩) ∧
    (∀ m : NestedMeta, m.key ≠ "from" →
      find_source_type [⟨"dto", [m]⟩] = Except.error ⟨m.keySpan,
        "unknown struct-level #[dto(...)] key; expected `from`"⟩) := by
  refine ⟨?_, ?_, ?_, ?_⟩
  · intro st m h1 h2 h3 h4
    simp [process_field_meta, h1, h2, h3, h4]
  · intro m h1 h2 h3 h4
    simp [extract_dto_field_attrs, List.foldlM, process_field_attr,
      process_field_meta, h1, h2, h3, h4, Bind.bind, Except.bind]
  · intro st m h1
    simp [process_struct_meta, h1]
  · intro m h1
    simp [find_source_type, List.foldlM, process_struct_attr,
      process_struct_meta, h1, Bind.bind, Except.bind]

/-- Witness for C4 at the concrete unknown keys "bogus" (field level)
and "into" (struct level). -/
theorem C4_unknown_keys_witness :
    process_field_meta {} ⟨"bogus", 7, MetaValue.absent⟩
      = Except.error ⟨7,
          "unknown #[dto(...)] key; expected one of: rename, transform_fn, skip, into"⟩ ∧
    extract_dto_field_attrs [⟨"dto", [⟨"bogus", 7, MetaValue.absent⟩]⟩]
      = Except.error ⟨7,
          "unknown #[dto(...)] key; expected one of: rename, transform_fn, skip, into"⟩ ∧
    process_struct_meta {} ⟨"into", 8, MetaValue.absent⟩
      = Except.error ⟨8, "unknown struct-level #[dto(...)] key; expected `from`"⟩ ∧
    find_source_type [⟨"dto", [⟨"into", 8, MetaValue.absent⟩]⟩]
      = Except.error ⟨8, "unknown struct-level #[dto(...)] key; expected `from`"⟩ :=
  ⟨C4_unknown_keys.1 {} ⟨"bogus", 7, MetaValue.absent⟩
      (by decide) (by decide) (by decide) (by decide),
   C4_unknown_keys.2.1 ⟨"bogus", 7, MetaValue.absent⟩
      (by decide) (by decide) (by decide) (by decide),
   C4_unknown_keys.2.2.1 {} ⟨"into", 8, MetaValue.absent⟩ (by decide),
   C4_unknown_keys.2.2.2 ⟨"into", 8, MetaValue.absent⟩ (by decide)⟩

/-- C5 counterexample: an enum input with no `#[dto(...)]` attribute is
a non-struct derive input, yet the macro returns the missing-`from`
diagnostic — source-type lookup runs before the item-shape check — and
not "DtoFrom only supports structs.". -/
theorem C5_counterexample :
    c5EnumInput.data = Data.Enum ∧
    dto_from_derive c5EnumInput
      = ("compile_error!(\"Expected `#[dto(from = Type)]` on the struct.\")", call_site) ∧
    (dto_from_derive c5EnumInput).1
      ≠ "compile_error!(\"DtoFrom only supports structs.\")" := by
  refine ⟨rfl, rfl, ?_⟩
  intro hcontra
  have h0 : ("compile_error!(\"Expected `#[dto(from = Type)]` on the struct.\")" : String)
      = "compile_error!(\"DtoFrom only supports structs.\")" := hcontra
  exact absurd h0 (by decide)

/-- C5 (amended): for every derive input whose struct-level source-type
lookup succeeds, a non-struct input (enum or union) yields exactly the
compile error "DtoFrom only supports structs." and nothing else, and a
struct input whose fields are not named (tuple or unit struct) yields
exactly the compile error "DtoFrom only supports named-field structs."
and nothing else; an input without a successful `#[dto(from = Type)]`
lookup instead reports the missing-`from` diagnostic. -/
theorem C5_shape_rejection (input : DeriveInput) (source_ty : String)
    (hfrom : find_source_type input.attrs = Except.ok source_ty) :
    (input.data = Data.Enum ∨ input.data = Data.Union →
      dto_from_derive input
        = to_compile_error ⟨input.identSpan, "DtoFrom only supports structs."⟩) ∧
    (∀ ar, input.data = Data.Struct (Fields.unnamed ar) →
      dto_from_derive input
        = to_compile_error ⟨input.identSpan, "DtoFrom only supports named-field structs."⟩) ∧
    (input.data = Data.Struct Fields.unit →
      dto_from_derive input
        = to_compile_error ⟨input.identSpan, "DtoFrom only supports named-field structs."⟩) := by
  refine ⟨?_, ?_, ?_⟩
  · intro hd
    cases hd with
    | inl h => simp [dto_from_derive, hfrom, h]
    | inr h => simp [dto_from_derive, hfrom, h]
  · intro ar hd
    simp [dto_from_derive, hfrom, hd]
  · intro hd
    simp [dto_from_derive, hfrom, hd]

/-- Witness for C5 (amended): an enum and a unit struct, both annotated
with a valid `#[dto(from = S)]`, are rejected with the two fixed
messages. -/
theorem C5_shape_rejection_witness :
    find_source_type [⟨"dto", [⟨"from", 1, MetaValue.path "S" 2⟩]⟩] = Except.ok "S" ∧
    dto_from_derive ⟨"E", 9, [⟨"dto", [⟨"from", 1, MetaValue.path "S" 2⟩]⟩], "", "", "",
        Data.Enum⟩
      = to_compile_error ⟨9, "DtoFrom only supports structs."⟩ ∧
    dto_from_derive ⟨"U", 11, [⟨"dto", [⟨"from", 1, MetaValue.path "S" 2⟩]⟩], "", "", "",
        Data.Struct Fields.unit⟩
      = to_compile_error ⟨11, "DtoFrom only supports named-field structs."⟩ :=
  ⟨rfl,
   (C5_shape_rejection ⟨"E", 9, [⟨"dto", [⟨"from", 1, MetaValue.path "S" 2⟩]⟩], "", "", "",
      Data.Enum⟩ "S" rfl).1 (Or.inl rfl),
   (C5_shape_rejection ⟨"U", 11, [⟨"dto", [⟨"from", 1, MetaValue.path "S" 2⟩]⟩], "", "", "",
      Data.Struct Fields.unit⟩ "S" rfl).2.2 rfl⟩

/-- C6: the transformation is stateless and deterministic — the derive
entry point is a pure function of the derive input, so two invocations
on equal inputs produce equal output token streams. -/
theorem C6_deterministic (s t : DeriveInput) (h : s = t) :
    dto_from_derive s = dto_from_derive t := by
  rw [h]

/-- Witness for C6 at a concrete derive input. -/
theorem C6_deterministic_witness :
    (⟨"T", 9, [], "", "", "", Data.Enum⟩ : DeriveInput)
      = ⟨"T", 9, [], "", "", "", Data.Enum⟩ ∧
    dto_from_derive ⟨"T", 9, [], "", "", "", Data.Enum⟩
      = dto_from_derive ⟨"T", 9, [], "", "", "", Data.Enum⟩ :=
  ⟨rfl, C6_deterministic ⟨"T", 9, [], "", "", "", Data.Enum⟩
    ⟨"T", 9, [], "", "", "", Data.Enum⟩ rfl⟩

/-- C7: the attribute directives of a field control only the mapping
of that field — if two field lists agree at every position other than `k`,
then the lists of emitted initializers agree at every position other
than `k`, because the initializer of each field is computed solely from the
identifier, span, and attributes of that field itself. -/
theorem C7_frame (fields1 fields2 : List Field) (k : Nat)
    (hagree : ∀ j, j ≠ k → fields1[j]? = fields2[j]?) :
    ∀ j, j ≠ k → (fields1.map field_init)[j]? = (fields2.map field_init)[j]? := by
  intro j hj
  rw [List.getElem?_map, List.getElem?_map, hagree j hj]

/-- Witness for C7: changing the directives of field 1 from `skip` to
`into` leaves the initializer of field 0 unchanged, namely the direct
mapping `a: source.a`. -/
theorem C7_frame_witness :
    (c7Fields1.map field_init)[0]? = (c7Fields2.map field_init)[0]? ∧
    (c7Fields1.map field_init)[0]? = some ("a" ++ ": source." ++ "a", 3) := by
  have hagree : ∀ j, j ≠ 1 → c7Fields1[j]? = c7Fields2[j]? := by
    intro j hj
    match j with
    | 0 => rfl
    | 1 => exact absurd rfl hj
    | n + 2 => rfl
  exact ⟨C7_frame c7Fields1 c7Fields2 1 hagree 0 (by decide), rfl⟩

/-- C8: when a field carries no `rename` directive, the generated
mapping reads the source field with the same name as the target field —
for every non-skipped field without `rename` the emitted expression
accesses `source.<target_field_name>` (in whichever of the three
non-skip shapes applies), and with `rename = "orig"` it accesses
`source.orig` instead. -/
theorem C8_rename_source_access (f : Field) (cfg : FieldAttrs)
    (h : extract_dto_field_attrs f.attrs = Except.ok cfg)
    (hskip : cfg.skip = false) :
    (cfg.rename = Option.none →
      ((field_init f).1 = f.ident ++ ": source." ++ f.ident
        ∨ (∃ fn, cfg.transform_fn = some fn ∧
            (field_init f).1 = f.ident ++ ": " ++ fn ++ "(source." ++ f.ident ++ ")")
        ∨ (field_init f).1
            = f.ident ++ ": ::core::convert::Into::into(source." ++ f.ident ++ ")")) ∧
    (∀ orig, cfg.rename = some orig →
      ((field_init f).1 = f.ident ++ ": source." ++ orig
        ∨ (∃ fn, cfg.transform_fn = some fn ∧
            (field_init f).1 = f.ident ++ ": " ++ fn ++ "(source." ++ orig ++ ")")
        ∨ (field_init f).1
            = f.ident ++ ": ::core::convert::Into::into(source." ++ orig ++ ")")) := by
  have key : ∀ (src : String) (sp : Span),
      ((generate_field_mapping f.ident src cfg sp).1 = f.ident ++ ": source." ++ src
        ∨ (∃ fn, cfg.transform_fn = some fn ∧
            (generate_field_mapping f.ident src cfg sp).1
              = f.ident ++ ": " ++ fn ++ "(source." ++ src ++ ")")
        ∨ (generate_field_mapping f.ident src cfg sp).1
            = f.ident ++ ": ::core::convert::Into::into(source." ++ src ++ ")") := by
    intro src sp
    cases htf : cfg.transform_fn with
    | some fn =>
      right; left
      exact ⟨fn, rfl, by simp [generate_field_mapping, decide_action, hskip, htf]⟩
    | none =>
      cases hinto : cfg.into_flag with
      | true =>
        right; right
        simp [generate_field_mapping, decide_action, hskip, htf, hinto]
      | false =>
        left
        simp [generate_field_mapping, decide_action, hskip, htf, hinto]
  have hfi : field_init f
      = generate_field_mapping f.ident (cfg.rename.getD f.ident) cfg
          (cfg.rename_span.getD f.span) := by
    simp [field_init, h]
  constructor
  · intro hr
    rw [hfi]
    simpa [hr] using key f.ident (cfg.rename_span.getD f.span)
  · intro orig hr
    rw [hfi]
    simpa [hr] using key orig (cfg.rename_span.getD f.span)

/-- Witness for C8: with `rename = "y"` the emitted initializer of `x`
accesses `source.y`. -/
theorem C8_rename_source_access_witness :
    extract_dto_field_attrs c8Field.attrs = Except.ok c8Cfg ∧
    c8Cfg.skip = false ∧
    ((field_init c8Field).1 = c8Field.ident ++ ": source." ++ "y"
      ∨ (∃ fn, c8Cfg.transform_fn = some fn ∧
          (field_init c8Field).1
            = c8Field.ident ++ ": " ++ fn ++ "(source." ++ "y" ++ ")")
      ∨ (field_init c8Field).1
          = c8Field.ident ++ ": ::core::convert::Into::into(source." ++ "y" ++ ")") :=
  ⟨rfl, rfl, (C8_rename_source_access c8Field c8Cfg rfl rfl).2 "y" rfl⟩

/-- C9: a `rename` value that is empty or consists only of whitespace is
rejected with "`rename` cannot be empty"; the check uses the trimmed
value (so " " is rejected as well) and runs before the
duplicate-`rename` check, which the universal quantification over the
parsing state (including states with `seen_rename` already set)
captures. -/
theorem C9_rename_empty (st : FieldParseState) (ksp : Span) (s : String) (sp : Span)
    (hs : trim_is_empty s = true) :
    process_field_meta st ⟨"rename", ksp, MetaValue.str s sp⟩
      = Except.error ⟨sp, "`rename` cannot be empty"⟩ ∧
    extract_dto_field_attrs [⟨"dto", [⟨"rename", ksp, MetaValue.str s sp⟩]⟩]
      = Except.error ⟨sp, "`rename` cannot be empty"⟩ := by
  constructor
  · simp [process_field_meta, parse_value_lit_str, hs]
  · simp [extract_dto_field_attrs, List.foldlM, process_field_attr,
      process_field_meta, parse_value_lit_str, hs, Bind.bind, Except.bind]

/-- Witness for C9 at the all-whitespace value " ", in a state whose
`seen_rename` flag is already set: the emptiness error still wins. -/
theorem C9_rename_empty_witness :
    trim_is_empty " " = true ∧
    process_field_meta ⟨{}, true, false, false, false⟩ ⟨"rename", 5, MetaValue.str " " 6⟩
      = Except.error ⟨6, "`rename` cannot be empty"⟩ ∧
    extract_dto_field_attrs [⟨"dto", [⟨"rename", 5, MetaValue.str " " 6⟩]⟩]
      = Except.error ⟨6, "`rename` cannot be empty"⟩ :=
  ⟨rfl,
   (C9_rename_empty ⟨{}, true, false, false, false⟩ 5 " " 6 rfl).1,
   (C9_rename_empty ⟨{}, true, false, false, false⟩ 5 " " 6 rfl).2⟩

/-- C10: every directive key may appear at most once — with the
corresponding `seen` flag already set, a second `rename` (with a
non-empty value, since the emptiness check runs first), `transform_fn`,
`skip`, or `into` fails with the matching "duplicate `...`" error, a
second struct-level `from` fails with "duplicate `from` on struct", and
a repeated `skip` fails end to end both inside a single `#[dto(...)]`
attribute and across two attributes on the same field. -/
theorem C10_duplicate_keys :
    (∀ (st : FieldParseState) (ksp : Span) (s : String) (sp : Span),
      st.seen_rename = true → trim_is_empty s = false →
      process_field_meta st ⟨"rename", ksp, MetaValue.str s sp⟩
        = Except.error ⟨sp, "duplicate `rename`"⟩) ∧
    (∀ (st : FieldParseState) (ksp : Span) (v : MetaValue),
      st.seen_transform = true →
      process_field_meta st ⟨"transform_fn", ksp, v⟩
        = Except.error ⟨ksp, "duplicate `transform_fn`"⟩) ∧
    (∀ (st : FieldParseState) (ksp : Span) (v : MetaValue),
      st.seen_skip = true →
      process_field_meta st ⟨"skip", ksp, v⟩
        = Except.error ⟨ksp, "duplicate `skip`"⟩) ∧
    (∀ (st : FieldParseState) (ksp : Span) (v : MetaValue),
      st.seen_into = true →
      process_field_meta st ⟨"into", ksp, v⟩
        = Except.error ⟨ksp, "duplicate `into`"⟩) ∧
    (∀ (st : FromParseState) (ksp : Span) (v : MetaValue),
      st.seen_from = true →
      process_struct_meta st ⟨"from", ksp, v⟩
        = Except.error ⟨ksp, "duplicate `from` on struct"⟩) ∧
    (∀ k1 k2 : Span,
      extract_dto_field_attrs [⟨"dto", [⟨"skip", k1, MetaValue.absent⟩,
          ⟨"skip", k2, MetaValue.absent⟩]⟩]
        = Except.error ⟨k2, "duplicate `skip`"⟩) ∧
    (∀ k1 k2 : Span,
      extract_dto_field_attrs [⟨"dto", [⟨"skip", k1, MetaValue.absent⟩]⟩,
          ⟨"dto", [⟨"skip", k2, MetaValue.absent⟩]⟩]
        = Except.error ⟨k2, "duplicate `skip`"⟩) := by
  refine ⟨?_, ?_, ?_, ?_, ?_, ?_, ?_⟩
  · intro st ksp s sp hseen hs
    simp [process_field_meta, parse_value_lit_str, hs, hseen]
  · intro st ksp v hseen
    simp [process_field_meta, hseen]
  · intro st ksp v hseen
    simp [process_field_meta, hseen]
  · intro st ksp v hseen
    simp [process_field_meta, hseen]
  · intro st ksp v hseen
    simp [process_struct_meta, hseen]
  · intro k1 k2
    simp [extract_dto_field_attrs, List.foldlM, process_field_attr,
      process_field_meta, Bind.bind, Except.bind, Pure.pure, Except.pure]
  · intro k1 k2
    simp [extract_dto_field_attrs, List.foldlM, process_field_attr,
      process_field_meta, Bind.bind, Except.bind, Pure.pure, Except.pure]

/-- Witness for C10 at concrete duplicate occurrences of each key. -/
theorem C10_duplicate_keys_witness :
    process_field_meta ⟨{}, true, false, false, false⟩ ⟨"rename", 1, MetaValue.str "y" 2⟩
      = Except.error ⟨2, "duplicate `rename`"⟩ ∧
    process_field_meta ⟨{}, false, true, false, false⟩
        ⟨"transform_fn", 3, MetaValue.path "f" 4⟩
      = Except.error ⟨3, "duplicate `transform_fn`"⟩ ∧
    process_field_meta ⟨{}, false, false, true, false⟩ ⟨"skip", 5, MetaValue.absent⟩
      = Except.error ⟨5, "duplicate `skip`"⟩ ∧
    process_field_meta ⟨{}, false, false, false, true⟩ ⟨"into", 6, MetaValue.absent⟩
      = Except.error ⟨6, "duplicate `into`"⟩ ∧
    process_struct_meta ⟨some "S", true⟩ ⟨"from", 7, MetaValue.path "S2" 8⟩
      = Except.error ⟨7, "duplicate `from` on struct"⟩ ∧
    extract_dto_field_attrs [⟨"dto", [⟨"skip", 9, MetaValue.absent⟩,
        ⟨"skip", 10, MetaValue.absent⟩]⟩]
      = Except.error ⟨10, "duplicate `skip`"⟩ ∧
    extract_dto_field_attrs [⟨"dto", [⟨"skip", 11, MetaValue.absent⟩]⟩,
        ⟨"dto", [⟨"skip", 12, MetaValue.absent⟩]⟩]
      = Except.error ⟨12, "duplicate `skip`"⟩ :=
  ⟨C10_duplicate_keys.1 ⟨{}, true, false, false, false⟩ 1 "y" 2 rfl rfl,
   C10_duplicate_keys.2.1 ⟨{}, false, true, false, false⟩ 3 (MetaValue.path "f" 4) rfl,
   C10_duplicate_keys.2.2.1 ⟨{}, false, false, true, false⟩ 5 MetaValue.absent rfl,
   C10_duplicate_keys.2.2.2.1 ⟨{}, false, false, false, true⟩ 6 MetaValue.absent rfl,
   C10_duplicate_keys.2.2.2.2.1 ⟨some "S", true⟩ 7 (MetaValue.path "S2" 8) rfl,
   C10_duplicate_keys.2.2.2.2.2.1 9 10,
   C10_duplicate_keys.2.2.2.2.2.2 11 12⟩

end DtoMapper
